import Mathlib

/-!
Verification of the deterministic daily selection and delivery-state
tracking logic of the Mitsuha wishing bot (`src/main.py`, with the
duplicated sanitizer also in `src/daily_wisher.py`).

The Python code is shallowly embedded: pure functions become Lean
functions over `Int` / `String` / `Finset ℤ`; Python exceptions become
`Except String`; the file system is an explicit value; CPython's
per-process salted string hash is an explicit function parameter.
-/

namespace Mitsuha

/-- Python `h & 0x7FFFFFFF` on an arbitrary (possibly negative) int.
Python's `&` with the positive all-ones mask `2^31 - 1` coincides with
mathematical `mod 2^31` because Python treats negative ints as infinite
two's complement. -/
def pymask31 (h : Int) : Int := h % (2 ^ 31 : Int)

/-- Python `a % b` on ints: raises `ZeroDivisionError` when `b = 0`.
For `b > 0` (the only case reached below) Python's result lies in
`[0, b)`, exactly like Lean's `Int.emod`. -/
def pymod (a b : Int) : Except String Int :=
  if b = 0 then .error "ZeroDivisionError" else .ok (a % b)

/-- `main.py` lines 119-121:
`return (hash(date_ist.isoformat()) & 0x7FFFFFFF) % max(1, count)`.
CPython's builtin `hash` on `str` is SipHash keyed by a per-process
random seed (`PYTHONHASHSEED`), so it is modelled as an explicit
parameter `hash : String → Int`: one fixed `hash` is one process. -/
def stable_daily_index (hash : String → Int) (dateIso : String) (count : Int) :
    Except String Int :=
  pymod (pymask31 (hash dateIso)) (max 1 count)

theorem pymask31_nonneg (h : Int) : 0 ≤ pymask31 h :=
  Int.emod_nonneg h (by norm_num)

/-- C1: for every process hash function, date string and count `n ≥ 1`,
the daily index selector returns (without raising) an integer in
`[0, n)`; being a pure function of `(hash, d, n)`, repeated invocations
within one process (fixed `hash`) return the same value. -/
theorem stable_daily_index_range (hash : String → Int) (d : String) (n : Int)
    (hn : 1 ≤ n) :
    ∃ i, stable_daily_index hash d n = .ok i ∧ 0 ≤ i ∧ i < n := by
  have hmax : max 1 n = n := max_eq_right hn
  have hpos : (0 : Int) < n := by omega
  refine ⟨pymask31 (hash d) % n, ?_, ?_, ?_⟩
  · simp [stable_daily_index, pymod, hmax]
    omega
  · exact Int.emod_nonneg _ (by omega)
  · exact Int.emod_lt_of_pos _ hpos

/-- Witness for C1 at a concrete hash, date and count. -/
theorem stable_daily_index_range_witness :
    ∃ i, stable_daily_index (fun _ => 7) "2026-01-01" 5 = .ok i ∧ 0 ≤ i ∧ i < 5 :=
  stable_daily_index_range (fun _ => 7) "2026-01-01" 5 (by norm_num)

/-- C2: the selected index depends on the value of the per-process string
hash. Two processes whose salted hashes assign `"2026-01-01"` the values
123456789 and 987654321 select different indices for `count = 5`
(index 4 versus index 1), so the code does not guarantee the same index
across process restarts, contrary to the spec and to the code's own
comment ("avoids sending a different sticker each rerun"). -/
theorem stable_daily_index_process_dependent :
    stable_daily_index (fun _ => 123456789) "2026-01-01" 5 ≠
      stable_daily_index (fun _ => 987654321) "2026-01-01" 5 := by
  have h1 : stable_daily_index (fun _ => 123456789) "2026-01-01" 5 = .ok 4 := rfl
  have h2 : stable_daily_index (fun _ => 987654321) "2026-01-01" 5 = .ok 1 := rfl
  rw [h1, h2]
  intro h
  exact absurd (Except.ok.inj h) (by norm_num)

/-- C3: for `count = 0` the selector does not raise (the guard
`max(1, count)` prevents the modulo-by-zero) and returns the trivially
defined index 0, the code's sentinel for "no candidate". -/
theorem stable_daily_index_count_zero (hash : String → Int) (d : String) :
    stable_daily_index hash d 0 = .ok 0 := by
  simp [stable_daily_index, pymod, pymask31]

/-- JSON values as produced by Python's `json.load` / consumed by
`json.dump`, restricted to the shapes relevant here (floats omitted:
the state file written by `save_dm_disabled` holds only strings and
ints, and unparseable content is modelled separately). `json.load`
collapses duplicate object keys (last wins), so objects are read with a
first-match lookup over already-deduplicated key lists. -/
inductive Json where
  | null : Json
  | bool : Bool → Json
  | int : Int → Json
  | str : String → Json
  | arr : List Json → Json
  | obj : List (String × Json) → Json

/-- Tail of a Python int literal digit run: digits with single
underscores allowed only between digits. -/
def pyDigitTail : List Char → Bool
  | [] => true
  | '_' :: rest =>
    match rest with
    | [] => false
    | d :: _ => d.isDigit && pyDigitTail rest
  | c :: rest => c.isDigit && pyDigitTail rest

/-- A valid Python int literal digit run (ASCII fragment of CPython's
rule; Unicode decimal digits are out of scope): nonempty, starts with a
digit, single underscores only between digits. -/
def pyDigitRun (l : List Char) : Bool :=
  match l with
  | [] => false
  | c :: rest => c.isDigit && pyDigitTail rest

/-- Numeric value of a digit run, ignoring underscores. -/
def digitVal (l : List Char) : Nat :=
  (l.filter (fun c => c ≠ '_')).foldl (fun a c => a * 10 + (c.toNat - '0'.toNat)) 0

/-- Python `int(s)` for a string `s`: strips surrounding whitespace,
accepts an optional sign followed by a digit run, otherwise raises
`ValueError` (modelled as `none`). -/
def pyIntOfString (s : String) : Option Int :=
  match s.trim.toList with
  | '+' :: rest => if pyDigitRun rest then some (digitVal rest) else none
  | '-' :: rest => if pyDigitRun rest then some (-(digitVal rest : Int)) else none
  | rest => if pyDigitRun rest then some (digitVal rest) else none

/-- Python `data.get(key, default)`: raises `AttributeError` when `data`
is not a dict. -/
def jsonGet (j : Json) (key : String) (default : Json) : Except String Json :=
  match j with
  | .obj kvs => .ok (((kvs.find? (fun kv => kv.1 == key)).map (fun kv => kv.2)).getD default)
  | _ => .error "AttributeError"

/-- Python `int(x)` on a JSON value: ints are returned as-is, bools are
ints in Python (`int(True) = 1`), strings are parsed as int literals
(raising `ValueError` on failure), everything else raises `TypeError`. -/
def pyToInt (j : Json) : Except String Int :=
  match j with
  | .int n => .ok n
  | .bool b => .ok (if b then 1 else 0)
  | .str s =>
    match pyIntOfString s with
    | some n => .ok n
    | none => .error "ValueError"
  | _ => .error "TypeError"

/-- Python iteration `for x in j`: lists yield elements, strings yield
1-character strings, dicts yield their keys; ints/bools/None raise
`TypeError`. -/
def pyIter (j : Json) : Except String (List Json) :=
  match j with
  | .arr xs => .ok xs
  | .str s => .ok (s.toList.map (fun c => .str (String.mk [c])))
  | .obj kvs => .ok (kvs.map (fun kv => .str kv.1))
  | _ => .error "TypeError"

/-- The set comprehension `{int(x) for x in user_ids}` (element
conversion part): first conversion failure raises. -/
def intsOfJsonList : List Json → Except String (List Int)
  | [] => .ok []
  | j :: rest => do
    let n ← pyToInt j
    let ns ← intsOfJsonList rest
    .ok (n :: ns)

/-- The file system state seen by `load_dm_disabled`:
`none` = `dm_disabled.json` does not exist; `some none` = the file
exists but `json.load` raises (empty or malformed text);
`some (some j)` = the file parses to the JSON value `j`. -/
def FileState : Type := Option (Option Json)

/-- The `try` body of `main.py` lines 301-310: existence check,
`json.load`, `data.get("user_ids", [])`, `{int(x) for x in user_ids}`. -/
def load_dm_disabled_body (file : FileState) : Except String (Finset Int) :=
  match file with
  | none => .ok ∅
  | some none => .error "JSONDecodeError"
  | some (some data) => do
    let userIds ← jsonGet data "user_ids" (.arr [])
    let elems ← pyIter userIds
    let ints ← intsOfJsonList elems
    .ok ints.toFinset

/-- `main.py` lines 301-310 (`load_dm_disabled`): the enclosing
`except Exception: return set()` turns every raise into the empty set,
so the caller never sees an error. -/
def load_dm_disabled (file : FileState) : Finset Int :=
  match load_dm_disabled_body file with
  | .ok s => s
  | .error _ => ∅

/-- `main.py` lines 313-320 (`save_dm_disabled`): the JSON value written
to `dm_disabled.json` — an object with the update timestamp and
`sorted(user_ids)`. Directory creation and the actual write are I/O and
are modelled in `on_ready_finalize`. -/
def save_dm_disabled (timestamp : String) (user_ids : Finset Int) : Json :=
  .obj [("updated_at_utc", .str timestamp),
        ("user_ids", .arr ((user_ids.sort (· ≤ ·)).map Json.int))]

/-- Converting back the ints written by `save_dm_disabled` recovers the
original list. -/
theorem intsOfJsonList_map_int (l : List Int) :
    intsOfJsonList (l.map Json.int) = .ok l := by
  induction l with
  | nil => rfl
  | cons x xs ih => simp [intsOfJsonList, pyToInt, ih, Bind.bind, Except.bind]

/-- A fresh `load_dm_disabled` of the file written by `save_dm_disabled`
recovers exactly the saved set. -/
theorem load_save_roundtrip (ts : String) (s : Finset Int) :
    load_dm_disabled (some (some (save_dm_disabled ts s))) = s := by
  have hget : jsonGet (save_dm_disabled ts s) "user_ids" (.arr []) =
      .ok (.arr ((s.sort (· ≤ ·)).map Json.int)) := rfl
  simp [load_dm_disabled, load_dm_disabled_body, hget, pyIter,
    intsOfJsonList_map_int, Finset.sort_toFinset, Bind.bind, Except.bind]

/-- C4: when the persisted file is missing, or is present but `json.load`
fails on it (empty or malformed text), or its parsed content makes the
extraction raise, `load_dm_disabled` returns the empty set; no error
ever reaches the caller. -/
theorem load_dm_disabled_safe (file : FileState) :
    ((file = none ∨ file = some none) → load_dm_disabled file = ∅) ∧
      (∀ e, load_dm_disabled_body file = .error e → load_dm_disabled file = ∅) := by
  constructor
  · rintro (rfl | rfl) <;> rfl
  · intro e he
    simp [load_dm_disabled, he]

/-- Witness for C4: the missing file, the unparseable file, and a parsed
file whose content is not even a dict (`json` text `3`) all load to the
empty set. -/
theorem load_dm_disabled_safe_witness :
    load_dm_disabled none = ∅ ∧ load_dm_disabled (some none) = ∅ ∧
      load_dm_disabled (some (some (Json.int 3))) = ∅ :=
  ⟨(load_dm_disabled_safe none).1 (Or.inl rfl),
   (load_dm_disabled_safe (some none)).1 (Or.inr rfl),
   (load_dm_disabled_safe (some (some (Json.int 3)))).2 "AttributeError" rfl⟩

/-- In-memory state of one `on_ready` run (`main.py` lines 1127-1129):
`known` is `dm_disabled_known` (the set loaded at run start, never
mutated), `updated` is `dm_disabled_updated` (the working copy), and
`mentions` is `newly_dm_disabled_to_mention` recorded as the member ids
whose mention strings were appended. -/
structure DmRunState where
  known : Finset Int
  updated : Finset Int
  mentions : List Int

/-- `main.py` lines 1127-1129:
`dm_disabled_known = load_dm_disabled()`;
`dm_disabled_updated = set(dm_disabled_known)`;
`newly_dm_disabled_to_mention = []`. -/
def init_run_state (known : Finset Int) : DmRunState :=
  { known := known, updated := known, mentions := [] }

/-- `main.py` lines 1145-1150 (the `except discord.Forbidden` branch,
i.e. `recordFailure(id)`): append a mention iff `id` is not in the set
loaded at run start (`dm_disabled_known`, not the working copy), then
add `id` to `dm_disabled_updated`. -/
def run_record_failure (st : DmRunState) (id : Int) : DmRunState :=
  { known := st.known,
    updated := insert id st.updated,
    mentions := if id ∈ st.known then st.mentions else st.mentions ++ [id] }

/-- `main.py` lines 1142-1143 (after a successful DM, i.e.
`recordSuccess(id)`): `if member.id in dm_disabled_updated:
dm_disabled_updated.discard(member.id)`. -/
def run_record_success (st : DmRunState) (id : Int) : DmRunState :=
  { known := st.known,
    updated := if id ∈ st.updated then st.updated.erase id else st.updated,
    mentions := st.mentions }

/-- C5: for every loaded set, identifier and save timestamp, after
`recordFailure(id)` the saved working set, freshly loaded back, contains
`id`. -/
theorem record_failure_save_load (k : Finset Int) (id : Int) (ts : String) :
    id ∈ load_dm_disabled (some (some (save_dm_disabled ts
      (run_record_failure (init_run_state k) id).updated))) := by
  rw [load_save_roundtrip]
  exact Finset.mem_insert_self id _

/-- C6: `recordSuccess(id)` removes `id` from the working set, and the
removal persists: after `recordFailure(id)` then `recordSuccess(id)`
then a save, a fresh load does not contain `id`. Concretely, the
persisted state with `user_ids` `[1, 2, 3]` loads to the set `{1,2,3}`,
and `recordSuccess(2)` followed by a save persists the object whose
`user_ids` is `[1, 3]`. -/
theorem record_success_removes (k : Finset Int) (id : Int) (ts : String) :
    id ∉ load_dm_disabled (some (some (save_dm_disabled ts
        (run_record_success (run_record_failure (init_run_state k) id) id).updated))) ∧
      load_dm_disabled (some (some (Json.obj
        [("user_ids", Json.arr [Json.int 1, Json.int 2, Json.int 3])]))) =
        ({1, 2, 3} : Finset Int) ∧
      save_dm_disabled ts
          (run_record_success (init_run_state ({1, 2, 3} : Finset Int)) 2).updated =
        Json.obj [("updated_at_utc", Json.str ts),
                  ("user_ids", Json.arr [Json.int 1, Json.int 3])] := by
  refine ⟨?_, ?_, ?_⟩
  · rw [load_save_roundtrip]
    simp [run_record_success, run_record_failure, init_run_state]
  · decide
  · have hupd : (run_record_success (init_run_state ({1, 2, 3} : Finset Int)) 2).updated =
        ({1, 3} : Finset Int) := by decide
    have h13 : (({1, 3} : Finset Int).sort (· ≤ ·)) =
        1 :: (({3} : Finset Int).sort (· ≤ ·)) :=
      Finset.sort_insert (fun x1 x2 => x1 ≤ x2) (by decide) (by decide)
    have hsort : (({1, 3} : Finset Int).sort (· ≤ ·)) = [1, 3] := by
      rw [h13, Finset.sort_singleton]
    rw [hupd]
    simp [save_dm_disabled, hsort]

/-- C7 counterexample: with an empty loaded set, the first
`recordFailure(1)` appends one mention and the second appends another
(the "newly observed" test checks the start-of-run set only), so the
second failure does cause a new notification, contrary to the claim. -/
theorem record_failure_twice_mentions_twice :
    (run_record_failure (init_run_state ∅) 1).mentions = [1] ∧
      (run_record_failure (run_record_failure (init_run_state ∅) 1) 1).mentions = [1, 1] ∧
      (run_record_failure (run_record_failure (init_run_state ∅) 1) 1).mentions ≠
        (run_record_failure (init_run_state ∅) 1).mentions := by
  refine ⟨by decide, by decide, by decide⟩

/-- C7 amended: `recordFailure(id)` appends a mention exactly when `id`
is absent from the set loaded at run start; calling it twice in one run
therefore appends two mentions when `id` was not in the loaded set, and
none at all when it was. -/
theorem record_failure_twice_mentions (k : Finset Int) (id : Int) :
    (run_record_failure (run_record_failure (init_run_state k) id) id).mentions =
      if id ∈ k then [] else [id, id] := by
  by_cases h : id ∈ k <;>
    simp [run_record_failure, init_run_state, h]

/-- `main.py` lines 1155-1180, the tail of `on_ready` after the member
loop: `save_dm_disabled(dm_disabled_updated)` runs with NO surrounding
`try`/`except` (the enclosing `try` has only a `finally`), then, if any
newly-blocked members were collected, a notification mentioning them is
sent to the fallback channel. The save's file I/O is abstracted as its
result `saveResult`; a sent notification is reported as the list of
mentioned member ids (the over-2000-character clipping only reformats
the message content and is not modelled). An uncaught save exception
therefore propagates and the notification step never runs. -/
def on_ready_finalize (saveResult : Except String Unit) (mentions : List Int) :
    Except String (Option (List Int)) := do
  let _ ← saveResult
  if mentions.isEmpty then
    return none
  else
    return some mentions

/-- C8: when the final save raises an I/O error, `on_ready` has no
handler for it, so the error propagates and the fallback-channel
notification of the newly-blocked member is never sent — the run does
not continue past the failed save. With a successful save the same
pending mention is sent. This contradicts the claim that a failed save
is only a non-fatal warning. -/
theorem save_failure_aborts_notification :
    on_ready_finalize (Except.error "IOError") [1] = Except.error "IOError" ∧
      on_ready_finalize (Except.ok ()) [1] = Except.ok (some [1]) :=
  ⟨rfl, rfl⟩

/-- The process environment: `os.environ.get`. -/
def Env : Type := String → Option String

/-- `main.py` lines 30-34 (`_env`): unset or blank (whitespace-only)
values fall back to the default; otherwise the original, unstripped
value is returned. (Lean's `String.trim` strips ASCII whitespace;
Python's `str.strip` also strips some rarer Unicode spaces.) -/
def envGet (env : Env) (name : String) (default : Option String) : Option String :=
  match env name with
  | none => default
  | some v => if v.trim = "" then default else some v

/-- `main.py` lines 37-42 (`_env_int`): the first name with a non-blank
value is parsed with `int(value)` (its `ValueError` propagates);
if no name is set the `Missing required int env var` error is raised. -/
def env_int (env : Env) (names : List String) : Except String Int :=
  match names with
  | [] => .error "Missing required int env var"
  | n :: rest =>
    match envGet env n none with
    | some v =>
      match pyIntOfString v with
      | some i => .ok i
      | none => .error "ValueError: invalid literal for int"
    | none => env_int env rest

/-- `main.py` lines 45-48 (`_split_csv`): split on commas, strip each
part, keep the nonempty parts; `None` gives the empty list. -/
def split_csv (value : Option String) : List String :=
  match value with
  | none => []
  | some v => ((v.splitOn ",").map (fun p => p.trim)).filter (fun p => p ≠ "")

/-- `main.py` lines 51-64: the `Config` dataclass. (`sticker_pfx`
renders the source's sticker name-filter field.) -/
structure Config where
  discord_token : String
  guild_id : Int
  fallback_channel_id : Int
  sticker_id : Option Int
  sticker_pfx : String
  sticker_pick_mode : String
  google_api_key : String
  google_calendar_ids : List String
  ollama_api_key : Option String
  ollama_host : String
  ollama_model : String

/-- `main.py` lines 74-80: optional `DISCORD_STICKER_ID`, which must be
an integer when present. -/
def sticker_id_of (env : Env) : Except String (Option Int) :=
  match envGet env "DISCORD_STICKER_ID" none with
  | none => .ok none
  | some raw =>
    match pyIntOfString raw with
    | some i => .ok (some i)
    | none => .error "DISCORD_STICKER_ID must be an integer sticker ID"

/-- `main.py` lines 83-85: `DISCORD_STICKER_PICK_MODE`, defaulted to
`daily`, lower-cased and stripped, must be `daily` or `ai`. -/
def pick_mode_of (env : Env) : Except String String :=
  match (((envGet env "DISCORD_STICKER_PICK_MODE" (some "daily")).getD "daily").trim).toLower with
  | "daily" => .ok "daily"
  | "ai" => .ok "ai"
  | _ => .error "DISCORD_STICKER_PICK_MODE must be daily or ai"

/-- `main.py` lines 87-91: the Google API key under any of its three
accepted names. -/
def google_key_of (env : Env) : Option String :=
  ((envGet env "GOOGLE_API_KEY" none).orElse
    (fun _ => envGet env "GOOGLE_CALENDAR_API_KEY" none)).orElse
    (fun _ => envGet env "GOOGLE_CALENDER_API_KEY" none)

/-- `main.py` lines 66-116 (`load_config`): each required value is
checked in source order and the first failure raises `ValueError`. Only
environment reads happen here — no network or Discord calls. -/
def load_config (env : Env) : Except String Config :=
  match (envGet env "DISCORD_TOKEN" none).orElse
      (fun _ => envGet env "DISCORD_BOT_API_KEY" none) with
  | none => .error "DISCORD_TOKEN is required"
  | some tok =>
    match env_int env ["DISCORD_GUILD_ID", "GUILD_ID"] with
    | .error e => .error e
    | .ok gid =>
      match env_int env ["DISCORD_FALLBACK_CHANNEL_ID", "CHANNEL_ID"] with
      | .error e => .error e
      | .ok fcid =>
        match sticker_id_of env with
        | .error e => .error e
        | .ok sid =>
          match pick_mode_of env with
          | .error e => .error e
          | .ok mode =>
            match google_key_of env with
            | none => .error "GOOGLE_API_KEY is required"
            | some gkey =>
              match split_csv (envGet env "GOOGLE_CALENDAR_IDS" none) with
              | [] => .error "GOOGLE_CALENDAR_IDS is required"
              | c :: cs =>
                .ok { discord_token := tok
                      guild_id := gid
                      fallback_channel_id := fcid
                      sticker_id := sid
                      sticker_pfx := (envGet env "DISCORD_STICKER_PREFIX" (some "CSD")).getD "CSD"
                      sticker_pick_mode := mode
                      google_api_key := gkey
                      google_calendar_ids := c :: cs
                      ollama_api_key := (envGet env "OLLAMA_API_KEY" none).orElse
                        (fun _ => envGet env "OLLAMA_CLOUD_API_KEY" none)
                      ollama_host := (envGet env "OLLAMA_HOST" (some "https://ollama.com")).getD
                        "https://ollama.com"
                      ollama_model := (envGet env "OLLAMA_MODEL" (some "gpt-oss:120b")).getD
                        "gpt-oss:120b" }

/-- `main.py` lines 1200-1204 (`__main__` startup): `load_config` runs
before anything else; on any exception the process prints the error and
exits with `SystemExit(2)`. External calls (calendar fetch, Discord
login) happen only on the `.ok` branch, after this point. -/
def python_main (env : Env) : Except Nat Config :=
  match load_config env with
  | .error _ => .error 2
  | .ok cfg => .ok cfg

/-- One of the required configuration values, as the code looks them up,
is missing or invalid: no Discord token under either name, no parsable
int for the guild id or the fallback channel id, no Google API key under
any of its three names, or an empty calendar-ID list. -/
def required_config_missing (env : Env) : Prop :=
  (envGet env "DISCORD_TOKEN" none).orElse
      (fun _ => envGet env "DISCORD_BOT_API_KEY" none) = none ∨
    (∃ e, env_int env ["DISCORD_GUILD_ID", "GUILD_ID"] = .error e) ∨
    (∃ e, env_int env ["DISCORD_FALLBACK_CHANNEL_ID", "CHANNEL_ID"] = .error e) ∨
    google_key_of env = none ∨
    split_csv (envGet env "GOOGLE_CALENDAR_IDS" none) = []

theorem load_config_error_of_missing (env : Env)
    (h : required_config_missing env) : ∃ e, load_config env = .error e := by
  unfold load_config
  rcases htok : (envGet env "DISCORD_TOKEN" none).orElse
      (fun _ => envGet env "DISCORD_BOT_API_KEY" none) with _ | tok
  · exact ⟨_, rfl⟩
  rcases hgid : env_int env ["DISCORD_GUILD_ID", "GUILD_ID"] with e1 | gid
  · exact ⟨_, rfl⟩
  rcases hfc : env_int env ["DISCORD_FALLBACK_CHANNEL_ID", "CHANNEL_ID"] with e2 | fcid
  · exact ⟨_, rfl⟩
  rcases hsid : sticker_id_of env with e3 | sid
  · exact ⟨_, rfl⟩
  rcases hmode : pick_mode_of env with e4 | mode
  · exact ⟨_, rfl⟩
  rcases hkey : google_key_of env with _ | gkey
  · exact ⟨_, rfl⟩
  rcases hcal : split_csv (envGet env "GOOGLE_CALENDAR_IDS" none) with _ | ⟨c, cs⟩
  · exact ⟨_, rfl⟩
  exfalso
  rcases h with h | ⟨e, h⟩ | ⟨e, h⟩ | h | h
  · simp [htok] at h
  · simp [hgid] at h
  · simp [hfc] at h
  · simp [hkey] at h
  · simp [hcal] at h

/-- C9: whenever a required configuration value (Discord token, guild
id, fallback channel id, Google API key, calendar-ID list) is missing or
invalid in the process environment, startup fails during `load_config` —
before any external call — and the process exits with the distinct
non-zero exit code 2. -/
theorem config_error_exits_2 (env : Env) (h : required_config_missing env) :
    python_main env = .error 2 ∧ (2 : Nat) ≠ 0 := by
  obtain ⟨e, he⟩ := load_config_error_of_missing env h
  exact ⟨by simp [python_main, he], by norm_num⟩

/-- Witness for C9: an entirely empty environment is missing the Discord
token, so the process exits with code 2. -/
theorem config_error_exits_2_witness :
    python_main (fun _ => none) = .error 2 ∧ (2 : Nat) ≠ 0 :=
  config_error_exits_2 (fun _ => none) (Or.inl rfl)

/-- Python `s.replace(old, new)` for a nonempty `old`, on char lists:
left-to-right scan, non-overlapping matches, replacement text not
rescanned. The fuel is the scanned length; each step consumes at least
one character (the patterns used are nonempty), so the fuel never runs
out and the fallback branch is unreachable. -/
def replaceAllAux (pat rep : List Char) : Nat → List Char → List Char
  | 0, l => l
  | _ + 1, [] => []
  | fuel + 1, c :: rest =>
    if pat.isPrefixOf (c :: rest) then
      rep ++ replaceAllAux pat rep fuel ((c :: rest).drop pat.length)
    else
      c :: replaceAllAux pat rep fuel rest

/-- Python `s.replace(old, new)` on char lists. -/
def replaceAll (pat rep l : List Char) : List Char :=
  replaceAllAux pat rep l.length l

/-- One or more ASCII digits followed by `>` (Discord mention ids are
ASCII; the Unicode digits Python's `\d` also accepts cannot occur in
them), returning the remainder. -/
def matchDigitsGt (l : List Char) : Option (List Char) :=
  let ds := l.takeWhile Char.isDigit
  match ds, l.drop ds.length with
  | [], _ => none
  | _ :: _, '>' :: r => some r
  | _ :: _, _ => none

/-- Consume a leading `c` if present (regex `c?`; backtracking is
unnecessary because after an unconsumed optional `&`/`!` the digit test
fails anyway). -/
def dropOpt (c : Char) : List Char → List Char
  | [] => []
  | x :: rest => if x = c then rest else x :: rest

/-- The compiled pattern `_MENTION_RE = <@&?\d+>|<@!?\d+>` matched at
the head of the list (`main.py` line 376, `daily_wisher.py` line 63),
returning the remainder after a match. -/
def matchMention : List Char → Option (List Char)
  | '<' :: '@' :: rest =>
    (matchDigitsGt (dropOpt '&' rest)).orElse (fun _ => matchDigitsGt (dropOpt '!' rest))
  | _ => none

/-- `_MENTION_RE.sub("", text)`: scan left to right, deleting
non-overlapping leftmost matches. Fuel as in `replaceAllAux`: every
step consumes at least one character. -/
def subMentionsAux : Nat → List Char → List Char
  | 0, l => l
  | _ + 1, [] => []
  | fuel + 1, c :: rest =>
    match matchMention (c :: rest) with
    | some r => subMentionsAux fuel r
    | none => c :: subMentionsAux fuel rest

/-- `_MENTION_RE.sub("", text)` on char lists. -/
def subMentions (l : List Char) : List Char :=
  subMentionsAux l.length l

/-- The ASCII whitespace stripped by Python `str.strip()` (its rarer
Unicode space characters are out of scope). -/
def isPySpace (c : Char) : Bool :=
  c = ' ' || c = '\t' || c = '\n' || c = '\r' || c = '\x0b' || c = '\x0c'

/-- Python `str.strip()` on char lists. -/
def pyStrip (l : List Char) : List Char :=
  ((l.dropWhile isPySpace).reverse.dropWhile isPySpace).reverse

/-- `main.py` lines 476-483 = `daily_wisher.py` lines 67-73
(`strip_discord_mentions`): empty text short-circuits; then
`@everyone` and `@here` are defanged, `_MENTION_RE` matches are
deleted, every remaining `@` is deleted by `replace("@", "")`, and the
result is stripped. -/
def strip_discord_mentions (s : String) : String :=
  if s = "" then ""
  else
    let t1 := replaceAll ("@everyone".toList) ("everyone".toList) s.toList
    let t2 := replaceAll ("@here".toList) ("here".toList) t1
    let t3 := subMentions t2
    let t4 := t3.filter (fun c => c ≠ '@')
    String.mk (pyStrip t4)

theorem mem_of_mem_dropWhile_py {c : Char} :
    ∀ l : List Char, c ∈ l.dropWhile isPySpace → c ∈ l := by
  intro l h
  induction l with
  | nil => simp at h
  | cons x xs ih =>
    rw [List.dropWhile_cons] at h
    by_cases hp : isPySpace x = true
    · simp only [hp, if_true] at h
      exact List.mem_cons_of_mem _ (ih h)
    · simp only [hp, if_false] at h
      exact h

theorem mem_of_mem_pyStrip {c : Char} {l : List Char} (h : c ∈ pyStrip l) : c ∈ l := by
  unfold pyStrip at h
  rw [List.mem_reverse] at h
  have h1 := mem_of_mem_dropWhile_py _ h
  rw [List.mem_reverse] at h1
  exact mem_of_mem_dropWhile_py _ h1

/-- C10: for every input string, the output of
`strip_discord_mentions` contains no `@` character at all — the final
`replace("@", "")` removes every `@` that survived the earlier steps,
and the trailing `strip()` only removes characters — so no user
mention, role mention, `@everyone` or `@here` token survives
sanitization. -/
theorem strip_discord_mentions_no_at (s : String) :
    ((strip_discord_mentions s).toList.all (fun c => c != '@')) = true := by
  rw [List.all_eq_true]
  intro c hc
  unfold strip_discord_mentions at hc
  by_cases hs : s = ""
  · simp [hs] at hc
  · simp only [hs, if_false] at hc
    have hc2 : c ∈ pyStrip ((subMentions (replaceAll ("@here".toList) ("here".toList)
        (replaceAll ("@everyone".toList) ("everyone".toList) s.toList))).filter
          (fun c => c ≠ '@')) := hc
    have hc3 := mem_of_mem_pyStrip hc2
    have hc4 := List.mem_filter.mp hc3
    simpa using hc4.2

end Mitsuha
